import Mathlib

/-!
Shallow embedding of the archivion backend-GCP media-ingestion pipeline.

Source files:
* upload processor function/index.js  (exports.processMedia)
* video audio extract function/index.js  (exports.extractAudioHandler)

The external collaborators (Cloud Vision, Video Intelligence, Speech,
Vertex topic generation, Cloud Storage download/upload, Pub/Sub publish,
and the ffmpeg subprocess) are modeled as oracle inputs: each call site
reads a pre-determined result (success value or error message) from a
`World` record.  Firestore is modeled as the single document the handler
touches (an `Option MediaRecord`), read at the start and written through
field-level merge; store reads and writes themselves are modeled as
succeeding, matching the spec which treats store primitives as external
collaborators.  All modeled failures are plain JS `Error` values carrying
a message, so `error.name` is the constant "Error".
-/

namespace ArchivionGCP

/-- JS `a || d` for an optional string: `undefined`/`null`/`""` are falsy. -/
def jsOr (o : Option String) (d : String) : String :=
  match o with
  | some s => if s = "" then d else s
  | none => d

/-- JS truthiness of an optional string value. -/
def jsTruthy (o : Option String) : Bool :=
  match o with
  | some s => s != ""
  | none => false

/-- Whether `sub` occurs as a contiguous run inside a character list. -/
def isInfixChars (sub : List Char) : List Char → Bool
  | [] => sub.isEmpty
  | c :: rest => sub.isPrefixOf (c :: rest) || isInfixChars sub rest

/-- JS `String.prototype.includes` (substring containment). -/
def jsIncludes (s sub : String) : Bool :=
  isInfixChars sub.data s.data

/-- JS `String.prototype.startsWith`, over the character lists. -/
def jsStartsWith (s pre : String) : Bool :=
  pre.data.isPrefixOf s.data

/-- Lowercasing as JS `toLowerCase` for the ASCII codec names seen here. -/
def toLowerStr (s : String) : String :=
  String.mk (s.data.map Char.toLower)

/-- JS `array.join("\n")` for a list of strings. -/
def joinWithNewline : List String → String
  | [] => ""
  | [t] => t
  | t :: rest => t ++ "\n" ++ joinWithNewline rest

/-- JS `String.prototype.trim`: strip leading and trailing whitespace. -/
def jsTrim (s : String) : String :=
  String.mk (((s.data.dropWhile Char.isWhitespace).reverse.dropWhile
    Char.isWhitespace).reverse)

/-- The list entries after the last slash character; the whole list when no
slash occurs.  Used to model Node `path` basename extraction. -/
def afterLastSlash : List Char → List Char
  | [] => []
  | c :: rest =>
    if '/' ∈ rest then afterLastSlash rest
    else if c = '/' then rest else c :: rest

/-- Drop trailing slash characters, as Node `path.parse` does before
splitting off the basename. -/
def stripTrailingSlashes (cs : List Char) : List Char :=
  (cs.reverse.dropWhile (fun c => c = '/')).reverse

/-- Node `path.basename` for the inputs this pipeline sees. -/
def basenameChars (p : String) : List Char :=
  afterLastSlash (stripTrailingSlashes p.data)

/-- Index of the last dot in a character list, when present. -/
def lastDotIdx : List Char → Option Nat
  | [] => none
  | c :: cs =>
    match lastDotIdx cs with
    | some i => some (i + 1)
    | none => if c = '.' then some 0 else none

/-- Node `path.parse(p).name`: the basename without its extension.  A dot at
position 0 of the basename (a dotfile) is not an extension separator. -/
def parseName (p : String) : String :=
  let b := basenameChars p
  match lastDotIdx b with
  | some i => if i = 0 then String.mk b else String.mk (b.take i)
  | none => String.mk b

/-- The standard base64 alphabet used by Node `Buffer.from(str, "base64")`. -/
def b64Alphabet : List Char :=
  "ABCDEFGHIJKLMNOPQRSTUVWXYZabcdefghijklmnopqrstuvwxyz0123456789+/".data

/-- Character for a sextet value. -/
def b64Char (n : Nat) : Char :=
  b64Alphabet.getD n 'A'

/-- Position of a character in a list, counting from `i`. -/
def lookupIdx (c : Char) : List Char → Nat → Option Nat
  | [], _ => none
  | d :: rest, i => if d = c then some i else lookupIdx c rest (i + 1)

/-- Sextet value of a base64 alphabet character; `none` for padding and any
other character, which Node base64 decoding skips. -/
def b64Val (c : Char) : Option Nat :=
  lookupIdx c b64Alphabet 0

/-- Base64 encoding of a byte list, processed in three-byte groups with
trailing `=` padding. -/
def base64EncodeChunks : List Nat → List Char
  | [] => []
  | [a] => [b64Char (a / 4), b64Char (a % 4 * 16), '=', '=']
  | [a, b] => [b64Char (a / 4), b64Char (a % 4 * 16 + b / 16), b64Char (b % 16 * 4), '=']
  | a :: b :: c :: rest =>
    b64Char (a / 4) :: b64Char (a % 4 * 16 + b / 16) ::
      b64Char (b % 16 * 4 + c / 64) :: b64Char (c % 64) :: base64EncodeChunks rest

/-- Base64 encoding of a byte list as a string. -/
def base64Encode (bs : List Nat) : String :=
  String.mk (base64EncodeChunks bs)

/-- Reassemble bytes from a list of sextets, in four-sextet groups; a
trailing group of two or three sextets contributes one or two bytes. -/
def sextetsToBytes : List Nat → List Nat
  | a :: b :: c :: d :: rest =>
    (a * 4 + b / 16) :: (b % 16 * 16 + c / 4) :: (c % 4 * 64 + d) :: sextetsToBytes rest
  | [a, b] => [a * 4 + b / 16]
  | [a, b, c] => [a * 4 + b / 16, b % 16 * 16 + c / 4]
  | _ => []

/-- Node `Buffer.from(str, "base64")`: non-alphabet characters (including
the `=` padding) are skipped, then sextets are packed into bytes. -/
def base64DecodeBytes (s : String) : List Nat :=
  sextetsToBytes (s.data.filterMap b64Val)

/-- Lowercase hexadecimal digit for a value below 16. -/
def hexDigit (n : Nat) : Char :=
  "0123456789abcdef".data.getD n '0'

/-- Two lowercase hex digits per byte, as Node `buf.toString("hex")`. -/
def bytesToHexChars : List Nat → List Char
  | [] => []
  | b :: rest => hexDigit (b / 16) :: hexDigit (b % 16) :: bytesToHexChars rest

/-- Lowercase hexadecimal rendering of a byte list. -/
def bytesToHexLower (bs : List Nat) : String :=
  String.mk (bytesToHexChars bs)

/-- Source `base64ToHex`: `null` for a missing or empty input, otherwise the
lowercase hex rendering of the base64-decoded bytes. -/
def base64ToHex (str : Option String) : Option String :=
  match str with
  | none => none
  | some s => if s = "" then none else some (bytesToHexLower (base64DecodeBytes s))

/-- Source video-path dedup `a.filter((v, i, s) => s.indexOf(v) === i)`:
keep exactly the entries with no earlier equal entry.  Modeled with an
accumulator of the values already seen. -/
def jsDedupAux (seen : List String) : List String → List String
  | [] => []
  | v :: rest =>
    if v ∈ seen then jsDedupAux seen rest
    else v :: jsDedupAux (v :: seen) rest

/-- First-occurrence deduplication of a string list. -/
def jsDedup (l : List String) : List String :=
  jsDedupAux [] l

/-- One Firestore document of the `media_metadata` collection.  Every field
is optional: `none` models the field being absent from the document. -/
structure MediaRecord where
  fileName : Option String := none
  bucket : Option String := none
  contentType : Option String := none
  uploadTime : Option String := none
  mediaUri : Option String := none
  version : Option String := none
  processedAt : Option String := none
  processingStatus : Option String := none
  tags : Option (List String) := none
  object_tags : Option (List String) := none
  transcription : Option String := none
  topics : Option (List String) := none
  visionApiStatus : Option String := none
  videoApiStatus : Option String := none
  speechApiStatus : Option String := none
  topicsApiStatus : Option String := none
  speechError : Option String := none
  topicsError : Option String := none
  processingError : Option (String × String) := none
deriving DecidableEq

/-- Firestore `docRef.set(upd, \x7b merge: true \x7d)`: fields present in the
update overwrite, absent fields keep the stored value. -/
def mergeRecord (old upd : MediaRecord) : MediaRecord where
  fileName := upd.fileName <|> old.fileName
  bucket := upd.bucket <|> old.bucket
  contentType := upd.contentType <|> old.contentType
  uploadTime := upd.uploadTime <|> old.uploadTime
  mediaUri := upd.mediaUri <|> old.mediaUri
  version := upd.version <|> old.version
  processedAt := upd.processedAt <|> old.processedAt
  processingStatus := upd.processingStatus <|> old.processingStatus
  tags := upd.tags <|> old.tags
  object_tags := upd.object_tags <|> old.object_tags
  transcription := upd.transcription <|> old.transcription
  topics := upd.topics <|> old.topics
  visionApiStatus := upd.visionApiStatus <|> old.visionApiStatus
  videoApiStatus := upd.videoApiStatus <|> old.videoApiStatus
  speechApiStatus := upd.speechApiStatus <|> old.speechApiStatus
  topicsApiStatus := upd.topicsApiStatus <|> old.topicsApiStatus
  speechError := upd.speechError <|> old.speechError
  topicsError := upd.topicsError <|> old.topicsError
  processingError := upd.processingError <|> old.processingError

/-- The Cloud Storage finalize event driving `processMedia`. -/
structure StorageEvent where
  name : String
  bucket : String
  contentType : Option String := none
  md5Hash : Option String := none
  resourceState : Option String := none
  timeCreated : String := ""
  generation : String := ""
deriving DecidableEq

/-- Environment configuration of the upload processor. -/
structure Env where
  audioBucketName : Option String := none
  audioExtractionTopicName : String := ""

/-- `file.contentType || "application/octet-stream"` from the source. -/
def effectiveContentType (e : StorageEvent) : String :=
  jsOr e.contentType "application/octet-stream"

/-- Source document-id derivation: filename stem for objects in the
derived-audio bucket, lowercase hex of the base64 md5 hash otherwise;
`none` models the abort on a falsy id. -/
def deriveDocId (env : Env) (e : StorageEvent) : Option String :=
  if env.audioBucketName = some e.bucket then some (parseName e.name)
  else
    match base64ToHex e.md5Hash with
    | none => none
    | some h => if h = "" then none else some h

/-- Format metadata reported by `music-metadata` for the downloaded file. -/
structure AudioFormat where
  codec : Option String := none
  sampleRate : Option Nat := none
  numberOfChannels : Option Nat := none
deriving DecidableEq

/-- First annotation result of the Video Intelligence response: the label
and object descriptions, each list absent when the response omits it. -/
structure AnnotationResult where
  segmentLabelAnnotations : Option (List String) := none
  objectAnnotations : Option (List String) := none
deriving DecidableEq

/-- Pre-determined outcomes of every external call one invocation of
`processMedia` may perform, plus the invocation wall-clock string. -/
structure World where
  now : String := ""
  download : Except String Unit := .ok ()
  audioFormat : Except String AudioFormat := .ok {}
  speech : Except String (List (List String)) := .ok []
  genTopics : Except String (List String) := .ok []
  annotateVideo : Except String (Option AnnotationResult) := .ok none
  publishResult : Except String Unit := .ok ()
  labelDetection : Except String (Option (List String)) := .ok none
  objectLocalization : Except String (Option (List String)) := .ok none

/-- The fan-out message body published for a processed video. -/
structure PubMessage where
  sourceBucketName : String
  sourceFilePath : String
  firestoreDocId : String
deriving DecidableEq

/-- Observable side effects of one invocation, in order. -/
inductive Action where
  | write (r : MediaRecord)
  | publishMessage (topic : String) (m : PubMessage)
  | callSpeech
  | callTopics
  | callVideo
  | callVisionLabels
  | callVisionObjects
deriving DecidableEq

/-- Result of one invocation: final state of the touched document, the
ordered side effects, and the rethrown error message when the invocation
ends by throwing. -/
structure InvocationResult where
  db : Option MediaRecord
  trace : List Action
  thrown : Option String
deriving DecidableEq

/-- Speech result projection `r.alternatives[0].transcript`: `none` when
some result has no alternative, which makes the member access throw. -/
def firstTranscripts (rs : List (List String)) : Option (List String) :=
  rs.mapM List.head?

/-- Encoding selection of the audio path, from codec and content type. -/
def chooseEncoding (codec : Option String) (contentType : String) : Option String :=
  if (codec.map (fun c => jsIncludes (toLowerStr c) "pcm")).getD false || jsIncludes contentType "wav" then
    some "LINEAR16"
  else if (codec.map (fun c => jsIncludes (toLowerStr c) "mpeg")).getD false || jsIncludes contentType "mp3" then
    some "MP3"
  else if (codec.map (fun c => jsIncludes (toLowerStr c) "flac")).getD false || jsIncludes contentType "flac" then
    some "FLAC"
  else none

/-- Audio-path starting record: the stored document when present, an empty
object otherwise, stamped with the per-run status and timestamp. -/
def audioStart (db : Option MediaRecord) (now : String) : MediaRecord :=
  { db.getD {} with processingStatus := some "In Progress", processedAt := some now }

/-- Audio-path inner catch: record the stage error and mark the run failed. -/
def audioFail (m : MediaRecord) (msg : String) : MediaRecord :=
  { m with speechApiStatus := some "error", speechError := some msg,
           processingStatus := some "Failed" }

/-- The audio-path inner try/catch: download, format probe, encoding
selection, speech recognition, then topic generation, every failure caught
locally.  Returns the resulting record and the external calls performed. -/
def audioStage (w : World) (contentType : String) (m1 : MediaRecord) :
    MediaRecord × List Action :=
  match w.download with
  | .error msg => (audioFail m1 msg, [])
  | .ok _ =>
    match w.audioFormat with
    | .error msg => (audioFail m1 msg, [])
    | .ok fmt =>
      match chooseEncoding fmt.codec contentType with
      | none => (audioFail m1 ("Unsupported audio codec: " ++ fmt.codec.getD "undefined"), [])
      | some _ =>
        match w.speech with
        | .error msg => (audioFail m1 msg, [Action.callSpeech])
        | .ok results =>
          if results.length > 0 then
            match firstTranscripts results with
            | none =>
              (audioFail m1 "TypeError: Cannot read properties of undefined",
               [Action.callSpeech])
            | some ts =>
              let newTranscription := jsTrim (joinWithNewline ts)
              let m2 := { m1 with transcription := some newTranscription }
              if newTranscription ≠ "" then
                let m3 := { m2 with speechApiStatus := some "success",
                                    topicsApiStatus := some "processing" }
                match w.genTopics with
                | .ok tps =>
                  ({ m3 with topics := some tps, topicsApiStatus := some "success",
                             processingStatus := some "Completed" },
                   [Action.callSpeech, Action.callTopics])
                | .error gmsg =>
                  ({ m3 with topicsApiStatus := some "error", topicsError := some gmsg,
                             processingStatus := some "Completed" },
                   [Action.callSpeech, Action.callTopics])
              else
                ({ m2 with speechApiStatus := some "no_transcription",
                           topicsApiStatus := some "skipped_no_transcript",
                           processingStatus := some "Completed" },
                 [Action.callSpeech])
          else
            ({ m1 with speechApiStatus := some "no_results",
                       topicsApiStatus := some "skipped_no_transcript",
                       processingStatus := some "Completed" },
             [Action.callSpeech])

/-- The `currentEventData` object spread of the video and image paths. -/
def currentEventFields (e : StorageEvent) (ct uri now : String) (m : MediaRecord) :
    MediaRecord :=
  { m with fileName := some e.name, bucket := some e.bucket, contentType := some ct,
           uploadTime := some e.timeCreated, mediaUri := some uri,
           processedAt := some now, version := some e.generation }

/-- Video-path starting record, before the annotation call. -/
def videoStart (e : StorageEvent) (ct uri now : String) (db : Option MediaRecord) :
    MediaRecord :=
  match db with
  | some old =>
    { currentEventFields e ct uri now old with
      processingStatus := some "In Progress", videoApiStatus := some "pending",
      tags := some (old.tags.getD []), object_tags := some (old.object_tags.getD []),
      transcription := some (jsOr old.transcription ""),
      topics := some (old.topics.getD []),
      topicsApiStatus := some (jsOr old.topicsApiStatus "pending") }
  | none =>
    currentEventFields e ct uri now
      { tags := some [], object_tags := some [], transcription := some "",
        processingStatus := some "In Progress", videoApiStatus := some "pending",
        speechApiStatus := some "pending", topics := some [],
        topicsApiStatus := some "pending" }

/-- Image-path starting record, before the vision calls. -/
def imageStart (e : StorageEvent) (ct uri now : String) (db : Option MediaRecord) :
    MediaRecord :=
  match db with
  | some old =>
    { currentEventFields e ct uri now old with processingStatus := some "In Progress" }
  | none =>
    currentEventFields e ct uri now
      { tags := some [], object_tags := some [], processingStatus := some "In Progress" }

/-- Video-path annotation list cleanup: drop falsy descriptions, then keep
first occurrences only; an absent list yields the empty list. -/
def cleanDeduped (o : Option (List String)) : List String :=
  (o.map (fun l => jsDedup (l.filter (fun s => s != "")))).getD []

/-- Image-path annotation list cleanup: drop falsy descriptions only. -/
def cleanList (o : Option (List String)) : List String :=
  (o.map (fun l => l.filter (fun s => s != ""))).getD []

/-- Merge of a present video annotation result into the working record. -/
def videoAnnotationsMerge (ar : AnnotationResult) (m : MediaRecord) : MediaRecord :=
  let tags := cleanDeduped ar.segmentLabelAnnotations
  let otags := cleanDeduped ar.objectAnnotations
  { m with tags := some tags, object_tags := some otags,
           videoApiStatus :=
             some (if tags.length > 0 || otags.length > 0 then "success" else "no_results") }

/-- The error state merged by the top-level catch before rethrowing. -/
def fatalErrorRecord (now msg : String) : MediaRecord :=
  { processingError := some (msg, "Error"), processingStatus := some "Failed",
    processedAt := some now }

/-- Top-level catch: best-effort merge of the error state into the current
document state, then rethrow. -/
def outerCatch (dbState : Option MediaRecord) (now : String) (calls : List Action)
    (msg : String) : InvocationResult :=
  { db := some (mergeRecord (dbState.getD {}) (fatalErrorRecord now msg)),
    trace := calls ++ [Action.write (fatalErrorRecord now msg)],
    thrown := some msg }

/-- The media locator string built at the top of `processMedia`. -/
def gcsUriOf (e : StorageEvent) : String :=
  "gs://" ++ e.bucket ++ "/" ++ e.name

/-- Final record of the audio path: the stage result, with the primary file
info refreshed only for direct uploads. -/
def audioFinal (env : Env) (w : World) (db : Option MediaRecord)
    (e : StorageEvent) : MediaRecord :=
  let sr := audioStage w (effectiveContentType e) (audioStart db w.now)
  if env.audioBucketName = some e.bucket then sr.1
  else { sr.1 with fileName := some e.name, bucket := some e.bucket,
                   contentType := some (effectiveContentType e),
                   uploadTime := some e.timeCreated, mediaUri := some (gcsUriOf e),
                   version := some e.generation }

/-- The audio processing path of `processMedia`. -/
def processAudioPath (env : Env) (w : World) (db : Option MediaRecord)
    (e : StorageEvent) : InvocationResult :=
  { db := some (mergeRecord (db.getD {}) (audioFinal env w db e)),
    trace := (audioStage w (effectiveContentType e) (audioStart db w.now)).2 ++
             [Action.write (audioFinal env w db e)],
    thrown := none }

/-- The video processing path of `processMedia`. -/
def processVideoPath (env : Env) (w : World) (db : Option MediaRecord)
    (e : StorageEvent) (firestoreDocId : String) : InvocationResult :=
  let m1 := { videoStart e (effectiveContentType e) (gcsUriOf e) w.now db with
              videoApiStatus := some "processing" }
  match w.annotateVideo with
  | .error msg => outerCatch db w.now [Action.callVideo] msg
  | .ok arOpt =>
    let m2 :=
      match arOpt with
      | some ar => videoAnnotationsMerge ar m1
      | none => { m1 with videoApiStatus := some "no_results" }
    let db1 := some (mergeRecord (db.getD {}) m2)
    let msg : PubMessage :=
      { sourceBucketName := e.bucket, sourceFilePath := e.name,
        firestoreDocId := firestoreDocId }
    match w.publishResult with
    | .ok _ =>
      { db := db1,
        trace := [Action.callVideo, Action.write m2,
                  Action.publishMessage env.audioExtractionTopicName msg],
        thrown := none }
    | .error pmsg =>
      outerCatch db1 w.now [Action.callVideo, Action.write m2] pmsg

/-- The image processing path of `processMedia`. -/
def processImagePath (_env : Env) (w : World) (db : Option MediaRecord)
    (e : StorageEvent) : InvocationResult :=
  let m1 := { imageStart e (effectiveContentType e) (gcsUriOf e) w.now db with
              visionApiStatus := some "processing" }
  match w.labelDetection with
  | .error msg => outerCatch db w.now [Action.callVisionLabels] msg
  | .ok labels =>
    let m2 := { m1 with tags := some (cleanList labels) }
    match w.objectLocalization with
    | .error msg =>
      outerCatch db w.now [Action.callVisionLabels, Action.callVisionObjects] msg
    | .ok objs =>
      let m3 := { m2 with
        object_tags := some (cleanList objs),
        visionApiStatus :=
          some (if (cleanList labels).length > 0 || (cleanList objs).length > 0
                then "success" else "no_results"),
        processingStatus := some "Completed" }
      { db := some (mergeRecord (db.getD {}) m3),
        trace := [Action.callVisionLabels, Action.callVisionObjects,
                  Action.write m3],
        thrown := none }

/-- One invocation of `exports.processMedia` over the modeled world. -/
def processMedia (env : Env) (w : World) (db : Option MediaRecord)
    (e : StorageEvent) : InvocationResult :=
  let contentType := effectiveContentType e
  if e.resourceState = some "not_exists" then { db := db, trace := [], thrown := none }
  else
    match deriveDocId env e with
    | none => { db := db, trace := [], thrown := none }
    | some firestoreDocId =>
      if jsStartsWith contentType "audio/" then processAudioPath env w db e
      else if jsStartsWith contentType "video/" then
        processVideoPath env w db e firestoreDocId
      else if jsStartsWith contentType "image/" then processImagePath env w db e
      else { db := db, trace := [], thrown := none }

/-- Fields of the decoded fan-out message, each possibly absent. -/
structure ExtractPayload where
  sourceBucketName : Option String := none
  sourceFilePath : Option String := none
  firestoreDocId : Option String := none
deriving DecidableEq

/-- State of the incoming queue message after decode and JSON parse. -/
inductive MessageData where
  | missing
  | unparsable
  | parsed (p : ExtractPayload)
deriving DecidableEq

/-- Outcome of spawning the transcoder subprocess. -/
inductive FfmpegOutcome where
  | spawnError (msg : String)
  | exited (code : Int)
deriving DecidableEq

/-- Pre-determined outcomes of the extraction collaborator calls. -/
structure ExtractWorld where
  downloadVideo : Except String Unit := .ok ()
  ffmpeg : FfmpegOutcome := .exited 0
  uploadAudio : Except String Unit := .ok ()
  audioFileExists : Bool := true
  unlinkVideoOk : Bool := true
  unlinkAudioOk : Bool := true

/-- Observable outcome of one extraction invocation.  The unlink flags of
the world never influence any field other than the attempt markers: unlink
failures are caught and only logged by the source. -/
structure ExtractResult where
  thrown : Option String
  videoUnlinkAttempted : Bool
  audioUnlinkAttempted : Bool
  uploadedTo : Option (String × String)
deriving DecidableEq

/-- Output object name chosen by the extraction stage. -/
def outputAudioFileName (firestoreDocId : String) : String :=
  firestoreDocId ++ ".flac"

/-- Early return of the extraction handler: message acknowledged, nothing
downloaded, no cleanup section entered. -/
def extractNoop : ExtractResult :=
  { thrown := none, videoUnlinkAttempted := false, audioUnlinkAttempted := false,
    uploadedTo := none }

/-- One invocation of `exports.extractAudioHandler` over the modeled world. -/
def extractAudioHandler (outputBucket : Option String) (w : ExtractWorld)
    (msg : MessageData) : ExtractResult :=
  if jsTruthy outputBucket = false then
    { thrown := some "OUTPUT_AUDIO_BUCKET_NAME environment variable not set.",
      videoUnlinkAttempted := false, audioUnlinkAttempted := false, uploadedTo := none }
  else
    match msg with
    | .missing => extractNoop
    | .unparsable => extractNoop
    | .parsed p =>
      if jsTruthy p.sourceBucketName && jsTruthy p.sourceFilePath &&
          jsTruthy p.firestoreDocId then
        let outName := outputAudioFileName (p.firestoreDocId.getD "")
        let attempt : Option String × Option (String × String) :=
          match w.downloadVideo with
          | .error m => (some m, none)
          | .ok _ =>
            match w.ffmpeg with
            | .spawnError m => (some ("FFmpeg failed to start: " ++ m), none)
            | .exited code =>
              if code = 0 then
                match w.uploadAudio with
                | .error m => (some m, none)
                | .ok _ => (none, some (outputBucket.getD "", outName))
              else
                (some ("FFmpeg process exited with code " ++ toString code ++ "."), none)
        { thrown := attempt.1, videoUnlinkAttempted := true,
          audioUnlinkAttempted := w.audioFileExists, uploadedTo := attempt.2 }
      else extractNoop

/-! ### General lemmas -/

theorem orElse_self {α : Type} (o : Option α) : (o <|> o) = o := by
  cases o <;> rfl

theorem mem_jsDedupAux_iff (x : String) :
    ∀ (seen l : List String), x ∈ jsDedupAux seen l ↔ x ∈ l ∧ x ∉ seen := by
  intro seen l
  induction l generalizing seen with
  | nil => simp [jsDedupAux]
  | cons v rest ih =>
    simp only [jsDedupAux]
    by_cases hv : v ∈ seen
    · rw [if_pos hv, ih]
      constructor
      · rintro ⟨h1, h2⟩
        exact ⟨List.mem_cons_of_mem _ h1, h2⟩
      · rintro ⟨h1, h2⟩
        rcases List.mem_cons.mp h1 with rfl | h1
        · exact absurd hv h2
        · exact ⟨h1, h2⟩
    · rw [if_neg hv]
      constructor
      · intro hx
        rcases List.mem_cons.mp hx with rfl | hx2
        · exact ⟨List.mem_cons_self x rest, hv⟩
        · rcases (ih (v :: seen)).mp hx2 with ⟨h1, h2⟩
          exact ⟨List.mem_cons_of_mem _ h1,
                 fun hc => h2 (List.mem_cons_of_mem _ hc)⟩
      · rintro ⟨h1, h2⟩
        by_cases hxv : x = v
        · exact hxv ▸ List.mem_cons_self x _
        · rcases List.mem_cons.mp h1 with rfl | hx2
          · exact absurd rfl hxv
          · refine List.mem_cons_of_mem _ ((ih (v :: seen)).mpr ⟨hx2, fun hc => ?_⟩)
            rcases List.mem_cons.mp hc with rfl | hc2
            · exact hxv rfl
            · exact h2 hc2

theorem jsDedupAux_nodup : ∀ (seen l : List String), (jsDedupAux seen l).Nodup := by
  intro seen l
  induction l generalizing seen with
  | nil => simp [jsDedupAux]
  | cons v rest ih =>
    simp only [jsDedupAux]
    by_cases hv : v ∈ seen
    · rw [if_pos hv]
      exact ih seen
    · rw [if_neg hv]
      refine List.nodup_cons.mpr ⟨fun hc => ?_, ih _⟩
      exact ((mem_jsDedupAux_iff v _ _).mp hc).2 (List.mem_cons_self v seen)

theorem jsDedupAux_sublist : ∀ (seen l : List String), List.Sublist (jsDedupAux seen l) l := by
  intro seen l
  induction l generalizing seen with
  | nil => simp [jsDedupAux]
  | cons v rest ih =>
    simp only [jsDedupAux]
    by_cases hv : v ∈ seen
    · rw [if_pos hv]
      exact (ih seen).cons v
    · rw [if_neg hv]
      exact (ih _).cons₂ v

theorem jsDedup_nodup (l : List String) : (jsDedup l).Nodup :=
  jsDedupAux_nodup [] l

theorem jsDedup_sublist (l : List String) : List.Sublist (jsDedup l) l :=
  jsDedupAux_sublist [] l

theorem mem_jsDedup (x : String) (l : List String) : x ∈ jsDedup l ↔ x ∈ l := by
  unfold jsDedup
  rw [mem_jsDedupAux_iff]
  simp

/-! ### Base64 and hex lemmas -/

theorem b64Val_b64Char : ∀ n < 64, b64Val (b64Char n) = some n := by decide

theorem b64Val_pad : b64Val '=' = none := by decide

theorem encode_chunks_decode : ∀ (bs : List Nat), (∀ x ∈ bs, x < 256) →
    sextetsToBytes ((base64EncodeChunks bs).filterMap b64Val) = bs := by
  intro bs
  induction bs using base64EncodeChunks.induct with
  | case1 =>
    intro _
    rfl
  | case2 a =>
    intro h
    have ha : a < 256 := h a (by simp)
    simp only [base64EncodeChunks, List.filterMap_cons,
      b64Val_b64Char (a / 4) (by omega), b64Val_b64Char (a % 4 * 16) (by omega),
      b64Val_pad, List.filterMap_nil]
    simp only [sextetsToBytes]
    have e1 : a / 4 * 4 + a % 4 * 16 / 16 = a := by omega
    rw [e1]
  | case3 a b =>
    intro h
    have ha : a < 256 := h a (by simp)
    have hb : b < 256 := h b (by simp)
    simp only [base64EncodeChunks, List.filterMap_cons,
      b64Val_b64Char (a / 4) (by omega),
      b64Val_b64Char (a % 4 * 16 + b / 16) (by omega),
      b64Val_b64Char (b % 16 * 4) (by omega), b64Val_pad, List.filterMap_nil]
    simp only [sextetsToBytes]
    have e1 : a / 4 * 4 + (a % 4 * 16 + b / 16) / 16 = a := by omega
    have e2 : (a % 4 * 16 + b / 16) % 16 * 16 + b % 16 * 4 / 4 = b := by omega
    rw [e1, e2]
  | case4 a b c rest ih =>
    intro h
    have ha : a < 256 := h a (by simp)
    have hb : b < 256 := h b (by simp)
    have hc : c < 256 := h c (by simp)
    have hrest : ∀ x ∈ rest, x < 256 :=
      fun x hx => h x (by simp [List.mem_cons, hx])
    simp only [base64EncodeChunks, List.filterMap_cons,
      b64Val_b64Char (a / 4) (by omega),
      b64Val_b64Char (a % 4 * 16 + b / 16) (by omega),
      b64Val_b64Char (b % 16 * 4 + c / 64) (by omega),
      b64Val_b64Char (c % 64) (by omega)]
    simp only [sextetsToBytes]
    have e1 : a / 4 * 4 + (a % 4 * 16 + b / 16) / 16 = a := by omega
    have e2 : (a % 4 * 16 + b / 16) % 16 * 16 + (b % 16 * 4 + c / 64) / 4 = b := by omega
    have e3 : (b % 16 * 4 + c / 64) % 4 * 64 + c % 64 = c := by omega
    rw [e1, e2, e3, ih hrest]

theorem base64_roundtrip (bs : List Nat) (h : ∀ x ∈ bs, x < 256) :
    base64DecodeBytes (base64Encode bs) = bs := by
  unfold base64DecodeBytes base64Encode
  exact encode_chunks_decode bs h

theorem base64Encode_ne_empty (bs : List Nat) (h : bs ≠ []) :
    base64Encode bs ≠ "" := by
  intro hc
  have hd := congrArg String.data hc
  rcases bs with _ | ⟨a, _ | ⟨b, rest⟩⟩
  · exact h rfl
  · simp [base64Encode, base64EncodeChunks] at hd
  · rcases rest with _ | ⟨c, rest2⟩ <;>
      simp [base64Encode, base64EncodeChunks] at hd

theorem hexDigit_mem : ∀ n < 16, hexDigit n ∈ "0123456789abcdef".data := by decide

theorem bytesToHexChars_mem : ∀ (bs : List Nat), (∀ b ∈ bs, b < 256) →
    ∀ c ∈ bytesToHexChars bs, c ∈ "0123456789abcdef".data := by
  intro bs
  induction bs with
  | nil =>
    intro _ c hc
    simp [bytesToHexChars] at hc
  | cons b rest ih =>
    intro h c hc
    have hb : b < 256 := h b (by simp)
    simp only [bytesToHexChars, List.mem_cons] at hc
    rcases hc with rfl | rfl | hc
    · exact hexDigit_mem _ (by omega)
    · exact hexDigit_mem _ (by omega)
    · exact ih (fun x hx => h x (List.mem_cons_of_mem _ hx)) c hc

theorem bytesToHexLower_mem (bs : List Nat) (h : ∀ b ∈ bs, b < 256) :
    ∀ c ∈ (bytesToHexLower bs).data, c ∈ "0123456789abcdef".data := by
  intro c hc
  exact bytesToHexChars_mem bs h c hc

theorem bytesToHexLower_ne_empty (bs : List Nat) (h : bs ≠ []) :
    bytesToHexLower bs ≠ "" := by
  intro hc
  have hd := congrArg String.data hc
  rcases bs with _ | ⟨b, rest⟩
  · exact h rfl
  · simp [bytesToHexLower, bytesToHexChars] at hd

/-! ### Path parsing lemmas -/

theorem afterLastSlash_of_no_slash (cs : List Char) (h : '/' ∉ cs) :
    afterLastSlash cs = cs := by
  induction cs with
  | nil => rfl
  | cons c rest ih =>
    have hc : c ≠ '/' := fun hc => h (hc ▸ List.mem_cons_self c rest)
    have hr : '/' ∉ rest := fun hr => h (List.mem_cons_of_mem _ hr)
    simp only [afterLastSlash, if_neg hr, if_neg hc]

theorem stripTrailingSlashes_of_no_slash (cs : List Char) (h : '/' ∉ cs) :
    stripTrailingSlashes cs = cs := by
  unfold stripTrailingSlashes
  have : cs.reverse.dropWhile (fun c => c = '/') = cs.reverse := by
    rcases hr : cs.reverse with _ | ⟨c, rest⟩
    · rfl
    · have hc : c ∈ cs := by
        have : c ∈ cs.reverse := hr ▸ List.mem_cons_self c rest
        exact List.mem_reverse.mp this
      have : (fun x => decide (x = '/')) c = false := by
        simp only [decide_eq_false_iff_not]
        exact fun he => h (he ▸ hc)
      rw [List.dropWhile_cons_of_neg]
      simp only [this, Bool.false_eq_true, not_false_eq_true]
  rw [this, List.reverse_reverse]

theorem lastDotIdx_append_flac (l : List Char) (h : '.' ∉ l) :
    lastDotIdx (l ++ ".flac".data) = some l.length := by
  have hfl : ".flac".data = ['.', 'f', 'l', 'a', 'c'] := rfl
  rw [hfl]
  induction l with
  | nil => rfl
  | cons c rest ih =>
    have hc : c ≠ '.' := fun hc => h (hc ▸ List.mem_cons_self c rest)
    have hr : '.' ∉ rest := fun hr => h (List.mem_cons_of_mem _ hr)
    simp only [List.cons_append, lastDotIdx, List.append_eq, ih hr, List.length_cons]

theorem parseName_append_flac (id : String) (h0 : id ≠ "")
    (hdot : '.' ∉ id.data) (hslash : '/' ∉ id.data) :
    parseName (id ++ ".flac") = id := by
  have hdata : (id ++ ".flac").data = id.data ++ ".flac".data := by
    simp [String.data_append]
  have hnos : '/' ∉ id.data ++ ".flac".data := by
    intro hc
    rcases List.mem_append.mp hc with hc1 | hc2
    · exact hslash hc1
    · simp at hc2
  unfold parseName basenameChars
  rw [hdata, stripTrailingSlashes_of_no_slash _ hnos, afterLastSlash_of_no_slash _ hnos]
  have hlen : id.data.length ≠ 0 := by
    intro hc
    apply h0
    have : id.data = [] := List.length_eq_zero.mp hc
    cases id
    simp_all
  simp only [lastDotIdx_append_flac _ hdot, if_neg hlen]
  rw [List.take_left]

/-! ### Audio stage frame lemma -/

theorem audioStage_frame (w : World) (ct : String) (m : MediaRecord) :
    (audioStage w ct m).1.fileName = m.fileName ∧
    (audioStage w ct m).1.bucket = m.bucket ∧
    (audioStage w ct m).1.contentType = m.contentType ∧
    (audioStage w ct m).1.uploadTime = m.uploadTime ∧
    (audioStage w ct m).1.mediaUri = m.mediaUri ∧
    (audioStage w ct m).1.version = m.version ∧
    (audioStage w ct m).1.processedAt = m.processedAt ∧
    (audioStage w ct m).1.tags = m.tags ∧
    (audioStage w ct m).1.object_tags = m.object_tags ∧
    (audioStage w ct m).1.visionApiStatus = m.visionApiStatus ∧
    (audioStage w ct m).1.videoApiStatus = m.videoApiStatus ∧
    (audioStage w ct m).1.processingError = m.processingError := by
  rcases hd : w.download with msg | u
  · simp [audioStage, hd, audioFail]
  rcases hf : w.audioFormat with msg | fmt
  · simp [audioStage, hd, hf, audioFail]
  rcases he : chooseEncoding fmt.codec ct with _ | enc
  · simp [audioStage, hd, hf, he, audioFail]
  rcases hs : w.speech with msg | results
  · simp [audioStage, hd, hf, he, hs, audioFail]
  by_cases hr : results.length > 0
  case neg => simp [audioStage, hd, hf, he, hs, hr, audioFail]
  rcases ht : firstTranscripts results with _ | ts
  · simp [audioStage, hd, hf, he, hs, hr, ht, audioFail]
  by_cases htr : jsTrim (joinWithNewline ts) ≠ ""
  · rcases hg : w.genTopics with gmsg | tps <;>
      simp [audioStage, hd, hf, he, hs, hr, ht, htr, hg, audioFail]
  · simp [audioStage, hd, hf, he, hs, hr, ht, htr, audioFail]

/-! ### Dispatch reduction lemmas -/

theorem processMedia_audio_eq (env : Env) (w : World) (db : Option MediaRecord)
    (e : StorageEvent) (hstate : e.resourceState ≠ some "not_exists") (i : String)
    (hid : deriveDocId env e = some i)
    (hA : jsStartsWith (effectiveContentType e) "audio/" = true) :
    processMedia env w db e = processAudioPath env w db e := by
  simp [processMedia, hstate, hid, hA]

theorem processMedia_video_eq (env : Env) (w : World) (db : Option MediaRecord)
    (e : StorageEvent) (hstate : e.resourceState ≠ some "not_exists") (i : String)
    (hid : deriveDocId env e = some i)
    (hA : jsStartsWith (effectiveContentType e) "audio/" = false)
    (hV : jsStartsWith (effectiveContentType e) "video/" = true) :
    processMedia env w db e = processVideoPath env w db e i := by
  simp [processMedia, hstate, hid, hA, hV]

theorem processMedia_image_eq (env : Env) (w : World) (db : Option MediaRecord)
    (e : StorageEvent) (hstate : e.resourceState ≠ some "not_exists") (i : String)
    (hid : deriveDocId env e = some i)
    (hA : jsStartsWith (effectiveContentType e) "audio/" = false)
    (hV : jsStartsWith (effectiveContentType e) "video/" = false)
    (hI : jsStartsWith (effectiveContentType e) "image/" = true) :
    processMedia env w db e = processImagePath env w db e := by
  simp [processMedia, hstate, hid, hA, hV, hI]

/-! ### Auxiliary record lemmas -/

theorem cleanDeduped_nodup (o : Option (List String)) : (cleanDeduped o).Nodup := by
  cases o with
  | none => simp [cleanDeduped]
  | some l => simpa [cleanDeduped] using jsDedup_nodup (l.filter (fun s => s != ""))

theorem cleanDeduped_some (l : List String) :
    cleanDeduped (some l) = jsDedup (l.filter (fun s => s != "")) := rfl

theorem audioFinal_stage_fields (env : Env) (w : World) (db : Option MediaRecord)
    (e : StorageEvent) :
    (audioFinal env w db e).processingStatus =
      (audioStage w (effectiveContentType e) (audioStart db w.now)).1.processingStatus ∧
    (audioFinal env w db e).speechApiStatus =
      (audioStage w (effectiveContentType e) (audioStart db w.now)).1.speechApiStatus ∧
    (audioFinal env w db e).speechError =
      (audioStage w (effectiveContentType e) (audioStart db w.now)).1.speechError ∧
    (audioFinal env w db e).topicsApiStatus =
      (audioStage w (effectiveContentType e) (audioStart db w.now)).1.topicsApiStatus ∧
    (audioFinal env w db e).topicsError =
      (audioStage w (effectiveContentType e) (audioStart db w.now)).1.topicsError ∧
    (audioFinal env w db e).topics =
      (audioStage w (effectiveContentType e) (audioStart db w.now)).1.topics ∧
    (audioFinal env w db e).transcription =
      (audioStage w (effectiveContentType e) (audioStart db w.now)).1.transcription := by
  unfold audioFinal
  by_cases hb : env.audioBucketName = some e.bucket <;> simp [hb]

theorem audioStage_ok_status (w : World) (ct : String) (m : MediaRecord)
    (hd : w.download = .ok ()) (fmt : AudioFormat) (hf : w.audioFormat = .ok fmt)
    (enc : String) (he : chooseEncoding fmt.codec ct = some enc)
    (rs : List (List String)) (hs : w.speech = .ok rs)
    (ts : List String) (hts : firstTranscripts rs = some ts) :
    (audioStage w ct m).1.processingStatus = some "Completed" := by
  by_cases hr : rs.length > 0
  · by_cases htr : jsTrim (joinWithNewline ts) ≠ ""
    · rcases hg : w.genTopics with g | t <;>
        simp [audioStage, hd, hf, he, hs, hr, hts, htr, hg]
    · simp [audioStage, hd, hf, he, hs, hr, hts, htr]
  · simp [audioStage, hd, hf, he, hs, hr]

theorem videoStart_processingStatus (e : StorageEvent) (ct uri now : String)
    (db : Option MediaRecord) :
    (videoStart e ct uri now db).processingStatus = some "In Progress" := by
  cases db <;> simp [videoStart, currentEventFields]

theorem audioStart_fields (db : Option MediaRecord) (now : String) :
    (audioStart db now).fileName = (db.getD {}).fileName ∧
    (audioStart db now).bucket = (db.getD {}).bucket ∧
    (audioStart db now).contentType = (db.getD {}).contentType ∧
    (audioStart db now).uploadTime = (db.getD {}).uploadTime ∧
    (audioStart db now).mediaUri = (db.getD {}).mediaUri ∧
    (audioStart db now).version = (db.getD {}).version ∧
    (audioStart db now).tags = (db.getD {}).tags ∧
    (audioStart db now).object_tags = (db.getD {}).object_tags ∧
    (audioStart db now).visionApiStatus = (db.getD {}).visionApiStatus ∧
    (audioStart db now).videoApiStatus = (db.getD {}).videoApiStatus ∧
    (audioStart db now).processingError = (db.getD {}).processingError ∧
    (audioStart db now).topics = (db.getD {}).topics ∧
    (audioStart db now).transcription = (db.getD {}).transcription := by
  simp [audioStart]

/-! ### Concrete fixtures -/

def demoEnv : Env :=
  { audioBucketName := some "extracted-audio-bucket",
    audioExtractionTopicName := "audio-extraction-topic" }

def md5Demo : List Nat :=
  [209, 106, 160, 152, 36, 77, 11, 64, 28, 222, 250, 62, 180, 168, 21, 130]

def hashEvent : StorageEvent :=
  { name := "clip.mp4", bucket := "media-uploads", contentType := some "video/mp4",
    md5Hash := some (base64Encode md5Demo),
    timeCreated := "2026-02-03T04:00:00.000Z", generation := "1001" }

def noHashEvent : StorageEvent :=
  { name := "clip.mp4", bucket := "media-uploads", contentType := some "video/mp4" }

def vidEvent : StorageEvent :=
  { name := "clip.mp4", bucket := "media-uploads", contentType := some "video/mp4",
    md5Hash := some "AQ==", timeCreated := "2026-02-03T04:00:00.000Z",
    generation := "1001" }

def imgEvent : StorageEvent :=
  { name := "photo.png", bucket := "media-uploads", contentType := some "image/png",
    md5Hash := some "AQ==", timeCreated := "2026-02-03T04:01:00.000Z",
    generation := "1002" }

def audEvent : StorageEvent :=
  { name := "note.wav", bucket := "media-uploads", contentType := some "audio/wav",
    md5Hash := some "AQ==", timeCreated := "2026-02-03T04:02:00.000Z",
    generation := "1003" }

def derivedAudioEvent : StorageEvent :=
  { name := "0a1b2c.flac", bucket := "extracted-audio-bucket",
    contentType := some "audio/flac" }

def catBallAnnotations : AnnotationResult :=
  { segmentLabelAnnotations := some ["Cat", "Cat"], objectAnnotations := some ["Ball"] }

def quietWorld : World := { now := "2026-02-03T04:05:06.000Z" }

def vidOkWorld : World :=
  { quietWorld with annotateVideo := .ok (some catBallAnnotations) }

def vidNoResultsWorld : World :=
  { quietWorld with annotateVideo := .ok none }

def vidFailWorld : World :=
  { quietWorld with annotateVideo := .error "VIDEO_API_DOWN" }

def imgOkWorld : World :=
  { quietWorld with labelDetection := .ok (some ["Tree"]),
                    objectLocalization := .ok (some ["Car"]) }

def imgFailWorld : World :=
  { quietWorld with labelDetection := .error "VISION_DOWN" }

def imgObjFailWorld : World :=
  { quietWorld with labelDetection := .ok (some ["Tree"]),
                    objectLocalization := .error "VISION_OBJ_DOWN" }

def vidPublishFailWorld : World :=
  { quietWorld with annotateVideo := .ok (some catBallAnnotations),
                    publishResult := .error "PUBSUB_DOWN" }

def audOkWorld : World :=
  { quietWorld with audioFormat := .ok { codec := some "PCM" },
                    speech := .ok [["hello world"]], genTopics := .ok ["Greetings"] }

def audSpeechFailWorld : World :=
  { quietWorld with audioFormat := .ok { codec := some "PCM" },
                    speech := .error "SPEECH_DOWN" }

def audTopicsFailWorld : World :=
  { quietWorld with audioFormat := .ok { codec := some "PCM" },
                    speech := .ok [["hello world"]], genTopics := .error "GEMINI_DOWN" }

def audBlankWorld : World :=
  { quietWorld with audioFormat := .ok { codec := some "PCM" },
                    speech := .ok [["  "]] }

def audDownloadFailWorld : World :=
  { quietWorld with download := .error "DOWNLOAD_FAILED" }

def existingVideoRecord : MediaRecord :=
  { fileName := some "clip.mp4", bucket := some "media-uploads",
    contentType := some "video/mp4", uploadTime := some "2026-02-01T00:00:00.000Z",
    mediaUri := some "gs://media-uploads/clip.mp4", version := some "1000",
    processedAt := some "2026-02-01T00:00:05.000Z", processingStatus := some "Completed",
    tags := some ["Cat"], object_tags := some ["Ball"], transcription := some "",
    topics := some ["Animals"], videoApiStatus := some "success",
    speechApiStatus := some "pending", topicsApiStatus := some "success" }

def extractPayloadDemo : ExtractPayload :=
  { sourceBucketName := some "media-uploads", sourceFilePath := some "clip.mp4",
    firestoreDocId := some "0a1b2c" }

def extractFailWorld : ExtractWorld := { ffmpeg := .exited 1 }

/-! ### Claim theorems -/

/-- C2: for every direct-upload event, a present content hash makes the
record key equal the lowercase hex encoding of that hash, and a missing
hash drops the event: no record is created or written and the invocation
returns without throwing. -/
theorem direct_upload_docId (env : Env) (e : StorageEvent)
    (hb : env.audioBucketName ≠ some e.bucket) :
    (∀ bs : List Nat, bs ≠ [] → (∀ x ∈ bs, x < 256) →
        e.md5Hash = some (base64Encode bs) →
        deriveDocId env e = some (bytesToHexLower bs) ∧
        ∀ c ∈ (bytesToHexLower bs).data, c ∈ "0123456789abcdef".data) ∧
    (e.md5Hash = none →
        ∀ (w : World) (db : Option MediaRecord),
          processMedia env w db e = { db := db, trace := [], thrown := none }) := by
  constructor
  · intro bs hne hlt hmd
    constructor
    · unfold deriveDocId
      rw [if_neg hb, hmd]
      simp [base64ToHex, base64Encode_ne_empty bs hne, base64_roundtrip bs hlt,
        bytesToHexLower_ne_empty bs hne]
    · exact bytesToHexLower_mem bs hlt
  · intro hmd w db
    have hdoc : deriveDocId env e = none := by
      unfold deriveDocId
      rw [if_neg hb, hmd]
      rfl
    by_cases hres : e.resourceState = some "not_exists" <;>
      simp [processMedia, hdoc, hres]

/-- Witness for C2 at a concrete 16-byte hash and a concrete hashless
event. -/
theorem direct_upload_docId_witness :
    deriveDocId demoEnv hashEvent = some (bytesToHexLower md5Demo) ∧
    processMedia demoEnv quietWorld none noHashEvent =
      { db := none, trace := [], thrown := none } := by
  constructor
  · exact ((direct_upload_docId demoEnv hashEvent (by decide)).1 md5Demo
      (by decide) (by decide) rfl).1
  · exact (direct_upload_docId demoEnv noHashEvent (by decide)).2 rfl quietWorld none

/-- C5: every video event whose annotation call returns (any outcome,
including an absent result) and whose publish succeeds produces a trace
with exactly one queue message, placed after the record write, carrying
the source bucket, source path and derived id, without throwing. -/
theorem video_fanout_publish (env : Env) (w : World) (db : Option MediaRecord)
    (e : StorageEvent) (i : String)
    (hstate : e.resourceState ≠ some "not_exists")
    (hid : deriveDocId env e = some i)
    (hA : jsStartsWith (effectiveContentType e) "audio/" = false)
    (hV : jsStartsWith (effectiveContentType e) "video/" = true)
    (arOpt : Option AnnotationResult) (har : w.annotateVideo = .ok arOpt)
    (hp : w.publishResult = .ok ()) :
    (processMedia env w db e).thrown = none ∧
    ∃ m : MediaRecord,
      (processMedia env w db e).trace =
        [Action.callVideo, Action.write m,
         Action.publishMessage env.audioExtractionTopicName
           { sourceBucketName := e.bucket, sourceFilePath := e.name,
             firestoreDocId := i }] := by
  rw [processMedia_video_eq env w db e hstate i hid hA hV]
  unfold processVideoPath
  constructor
  · simp only [har, hp]
  · simp only [har, hp]
    exact ⟨_, rfl⟩

/-- Witness for C5 on a video whose annotation yields no results: the
fan-out still publishes. -/
theorem video_fanout_publish_witness :
    (processMedia demoEnv vidNoResultsWorld none vidEvent).thrown = none ∧
    ∃ m : MediaRecord,
      (processMedia demoEnv vidNoResultsWorld none vidEvent).trace =
        [Action.callVideo, Action.write m,
         Action.publishMessage demoEnv.audioExtractionTopicName
           { sourceBucketName := vidEvent.bucket, sourceFilePath := vidEvent.name,
             firestoreDocId := "01" }] :=
  video_fanout_publish demoEnv vidNoResultsWorld none vidEvent "01" (by decide)
    (by decide) (by decide) (by decide) none rfl rfl

/-- C8: the tag and object-tag lists written by the video path are free of
duplicates: they are the first-occurrence dedup of the cleaned
annotation descriptions, hence without repeated entries, order
preserving, and keeping exactly the original members. -/
theorem video_tags_deduped (env : Env) (w : World) (db : Option MediaRecord)
    (e : StorageEvent) (i : String) (ar : AnnotationResult)
    (hstate : e.resourceState ≠ some "not_exists")
    (hid : deriveDocId env e = some i)
    (hA : jsStartsWith (effectiveContentType e) "audio/" = false)
    (hV : jsStartsWith (effectiveContentType e) "video/" = true)
    (har : w.annotateVideo = .ok (some ar))
    (hp : w.publishResult = .ok ()) :
    ∃ r : MediaRecord,
      (processMedia env w db e).db = some r ∧
      r.tags = some (cleanDeduped ar.segmentLabelAnnotations) ∧
      r.object_tags = some (cleanDeduped ar.objectAnnotations) ∧
      (cleanDeduped ar.segmentLabelAnnotations).Nodup ∧
      (cleanDeduped ar.objectAnnotations).Nodup ∧
      (∀ l : List String, ar.segmentLabelAnnotations = some l →
        List.Sublist (cleanDeduped (some l)) (l.filter (fun s => s != "")) ∧
        ∀ x : String, x ∈ cleanDeduped (some l) ↔ x ∈ l.filter (fun s => s != "")) ∧
      (∀ l : List String, ar.objectAnnotations = some l →
        List.Sublist (cleanDeduped (some l)) (l.filter (fun s => s != "")) ∧
        ∀ x : String, x ∈ cleanDeduped (some l) ↔ x ∈ l.filter (fun s => s != "")) := by
  rw [processMedia_video_eq env w db e hstate i hid hA hV]
  unfold processVideoPath
  simp only [har, hp]
  refine ⟨_, rfl, ?_, ?_, cleanDeduped_nodup _, cleanDeduped_nodup _, ?_, ?_⟩
  · simp [mergeRecord, videoAnnotationsMerge]
  · simp [mergeRecord, videoAnnotationsMerge]
  · intro l hl
    rw [cleanDeduped_some]
    exact ⟨jsDedup_sublist _, fun x => mem_jsDedup x _⟩
  · intro l hl
    rw [cleanDeduped_some]
    exact ⟨jsDedup_sublist _, fun x => mem_jsDedup x _⟩

/-- Witness for C8 on duplicate annotations: two Cat labels and one Ball
object give deduplicated lists. -/
theorem video_tags_deduped_witness :
    ∃ r : MediaRecord,
      (processMedia demoEnv vidOkWorld none vidEvent).db = some r ∧
      r.tags = some (cleanDeduped catBallAnnotations.segmentLabelAnnotations) ∧
      r.object_tags = some (cleanDeduped catBallAnnotations.objectAnnotations) ∧
      (cleanDeduped catBallAnnotations.segmentLabelAnnotations).Nodup ∧
      (cleanDeduped catBallAnnotations.objectAnnotations).Nodup ∧
      (∀ l : List String, catBallAnnotations.segmentLabelAnnotations = some l →
        List.Sublist (cleanDeduped (some l)) (l.filter (fun s => s != "")) ∧
        ∀ x : String, x ∈ cleanDeduped (some l) ↔ x ∈ l.filter (fun s => s != "")) ∧
      (∀ l : List String, catBallAnnotations.objectAnnotations = some l →
        List.Sublist (cleanDeduped (some l)) (l.filter (fun s => s != "")) ∧
        ∀ x : String, x ∈ cleanDeduped (some l) ↔ x ∈ l.filter (fun s => s != "")) :=
  video_tags_deduped demoEnv vidOkWorld none vidEvent "01" catBallAnnotations
    (by decide) (by decide) (by decide) (by decide) rfl rfl

/-- C9: the extraction stage names its output id.flac, and the identifier
deriver applied to that name inside the derived-audio container recovers
the original id for any nonempty lowercase-hex id. -/
theorem extraction_id_roundtrip (env : Env) (e : StorageEvent) (id : String)
    (h0 : id ≠ "")
    (hhex : ∀ c ∈ id.data, c ∈ "0123456789abcdef".data)
    (hb : env.audioBucketName = some e.bucket)
    (hn : e.name = outputAudioFileName id) :
    outputAudioFileName id = id ++ ".flac" ∧ deriveDocId env e = some id := by
  have hdot : '.' ∉ id.data := fun hc => absurd (hhex _ hc) (by decide)
  have hslash : '/' ∉ id.data := fun hc => absurd (hhex _ hc) (by decide)
  refine ⟨rfl, ?_⟩
  unfold deriveDocId
  rw [if_pos hb, hn]
  unfold outputAudioFileName
  rw [parseName_append_flac id h0 hdot hslash]

/-- Witness for C9 at the concrete id 0a1b2c. -/
theorem extraction_id_roundtrip_witness :
    outputAudioFileName "0a1b2c" = "0a1b2c" ++ ".flac" ∧
    deriveDocId demoEnv derivedAudioEvent = some "0a1b2c" :=
  extraction_id_roundtrip demoEnv derivedAudioEvent "0a1b2c" (by decide) (by decide)
    rfl rfl

/-- C10: on a well-formed message, a transcoder non-zero exit or spawn
failure makes the handler throw; deletion of the downloaded video is
always attempted and deletion of the extracted audio is attempted exactly
when that file exists, in every outcome; unlink outcomes never change
what the handler throws. -/
theorem extract_ffmpeg_failure (outBucket : String) (hB : outBucket ≠ "")
    (p : ExtractPayload) (w : ExtractWorld)
    (h1 : jsTruthy p.sourceBucketName = true)
    (h2 : jsTruthy p.sourceFilePath = true)
    (h3 : jsTruthy p.firestoreDocId = true) :
    ((extractAudioHandler (some outBucket) w (.parsed p)).videoUnlinkAttempted = true ∧
     (extractAudioHandler (some outBucket) w (.parsed p)).audioUnlinkAttempted =
       w.audioFileExists) ∧
    (w.downloadVideo = .ok () →
      (∀ code : Int, code ≠ 0 → w.ffmpeg = .exited code →
        (extractAudioHandler (some outBucket) w (.parsed p)).thrown =
          some ("FFmpeg process exited with code " ++ toString code ++ ".")) ∧
      (∀ m : String, w.ffmpeg = .spawnError m →
        (extractAudioHandler (some outBucket) w (.parsed p)).thrown =
          some ("FFmpeg failed to start: " ++ m))) ∧
    (∀ b1 b2 : Bool,
      (extractAudioHandler (some outBucket)
          { w with unlinkVideoOk := b1, unlinkAudioOk := b2 } (.parsed p)).thrown =
        (extractAudioHandler (some outBucket) w (.parsed p)).thrown) := by
  have hT : jsTruthy (some outBucket) = true := by
    simp [jsTruthy, hB]
  refine ⟨?_, ?_, ?_⟩
  · constructor <;> simp [extractAudioHandler, hT, h1, h2, h3]
  · intro hdl
    constructor
    · intro code hc hff
      simp [extractAudioHandler, hT, h1, h2, h3, hdl, hff, hc]
    · intro m hff
      simp [extractAudioHandler, hT, h1, h2, h3, hdl, hff]
  · intro b1 b2
    rfl

/-- Witness for C10 at exit code 1. -/
theorem extract_ffmpeg_failure_witness :
    ((extractAudioHandler (some "audio-output-bucket") extractFailWorld
        (.parsed extractPayloadDemo)).videoUnlinkAttempted = true ∧
     (extractAudioHandler (some "audio-output-bucket") extractFailWorld
        (.parsed extractPayloadDemo)).audioUnlinkAttempted =
       extractFailWorld.audioFileExists) ∧
    (extractFailWorld.downloadVideo = .ok () →
      (∀ code : Int, code ≠ 0 → extractFailWorld.ffmpeg = .exited code →
        (extractAudioHandler (some "audio-output-bucket") extractFailWorld
            (.parsed extractPayloadDemo)).thrown =
          some ("FFmpeg process exited with code " ++ toString code ++ ".")) ∧
      (∀ m : String, extractFailWorld.ffmpeg = .spawnError m →
        (extractAudioHandler (some "audio-output-bucket") extractFailWorld
            (.parsed extractPayloadDemo)).thrown =
          some ("FFmpeg failed to start: " ++ m))) ∧
    (∀ b1 b2 : Bool,
      (extractAudioHandler (some "audio-output-bucket")
          { extractFailWorld with unlinkVideoOk := b1, unlinkAudioOk := b2 }
          (.parsed extractPayloadDemo)).thrown =
        (extractAudioHandler (some "audio-output-bucket") extractFailWorld
            (.parsed extractPayloadDemo)).thrown) :=
  extract_ffmpeg_failure "audio-output-bucket" (by decide) extractPayloadDemo
    extractFailWorld (by decide) (by decide) (by decide)

/-- C1 counterexample: a derived-audio merge against an existing record also
changes the overall processingStatus and the processedAt timestamp, fields
outside the set the claim allows to change. -/
theorem derived_merge_changes_overall_status :
    ((processMedia demoEnv audSpeechFailWorld (some existingVideoRecord)
        derivedAudioEvent).db.map (fun r => r.processingStatus)) =
      some (some "Failed") ∧
    existingVideoRecord.processingStatus = some "Completed" ∧
    ((processMedia demoEnv audSpeechFailWorld (some existingVideoRecord)
        derivedAudioEvent).db.map (fun r => r.processedAt)) ≠
      some existingVideoRecord.processedAt := by
  decide

/-- C1 amended: an audio event from the derived-audio container merges
without throwing and leaves the existing record's source-info fields,
tags, object_tags, vision/video statuses and processingError unchanged;
only transcription, topics, the speech/topic status and error fields, the
overall processingStatus and the processedAt timestamp may change. -/
theorem derived_audio_merge_frame (env : Env) (w : World) (e : StorageEvent)
    (r : MediaRecord)
    (hstate : e.resourceState ≠ some "not_exists")
    (hb : env.audioBucketName = some e.bucket)
    (hA : jsStartsWith (effectiveContentType e) "audio/" = true) :
    (processMedia env w (some r) e).thrown = none ∧
    ∃ rr : MediaRecord, (processMedia env w (some r) e).db = some rr ∧
      rr.fileName = r.fileName ∧ rr.bucket = r.bucket ∧
      rr.contentType = r.contentType ∧ rr.uploadTime = r.uploadTime ∧
      rr.mediaUri = r.mediaUri ∧ rr.version = r.version ∧
      rr.tags = r.tags ∧ rr.object_tags = r.object_tags ∧
      rr.visionApiStatus = r.visionApiStatus ∧
      rr.videoApiStatus = r.videoApiStatus ∧
      rr.processingError = r.processingError := by
  have hid : deriveDocId env e = some (parseName e.name) := by
    simp [deriveDocId, hb]
  rw [processMedia_audio_eq env w (some r) e hstate _ hid hA]
  unfold processAudioPath
  have hfin : audioFinal env w (some r) e =
      (audioStage w (effectiveContentType e) (audioStart (some r) w.now)).1 := by
    simp [audioFinal, hb]
  obtain ⟨f1, f2, f3, f4, f5, f6, f7, f8, f9, f10, f11, f12⟩ :=
    audioStage_frame w (effectiveContentType e) (audioStart (some r) w.now)
  obtain ⟨g1, g2, g3, g4, g5, g6, g7, g8, g9, g10, g11, g12, g13⟩ :=
    audioStart_fields (some r) w.now
  refine ⟨rfl, _, rfl, ?_, ?_, ?_, ?_, ?_, ?_, ?_, ?_, ?_, ?_, ?_⟩ <;>
    simp [mergeRecord, hfin, f1, f2, f3, f4, f5, f6, f7, f8, f9, f10, f11, f12,
      g1, g2, g3, g4, g5, g6, g7, g8, g9, g10, g11, orElse_self]

/-- Witness for C1 amended at a concrete existing record and derived
event. -/
theorem derived_audio_merge_frame_witness :
    (processMedia demoEnv audSpeechFailWorld (some existingVideoRecord)
        derivedAudioEvent).thrown = none ∧
    ∃ rr : MediaRecord,
      (processMedia demoEnv audSpeechFailWorld (some existingVideoRecord)
          derivedAudioEvent).db = some rr ∧
      rr.fileName = existingVideoRecord.fileName ∧
      rr.bucket = existingVideoRecord.bucket ∧
      rr.contentType = existingVideoRecord.contentType ∧
      rr.uploadTime = existingVideoRecord.uploadTime ∧
      rr.mediaUri = existingVideoRecord.mediaUri ∧
      rr.version = existingVideoRecord.version ∧
      rr.tags = existingVideoRecord.tags ∧
      rr.object_tags = existingVideoRecord.object_tags ∧
      rr.visionApiStatus = existingVideoRecord.visionApiStatus ∧
      rr.videoApiStatus = existingVideoRecord.videoApiStatus ∧
      rr.processingError = existingVideoRecord.processingError :=
  derived_audio_merge_frame demoEnv audSpeechFailWorld derivedAudioEvent
    existingVideoRecord (by decide) rfl (by decide)

/-- C3 counterexample: a video event that completes fully without throwing
leaves the overall status at In Progress, never reaching Completed. -/
theorem video_success_stays_in_progress :
    (processMedia demoEnv vidOkWorld none vidEvent).thrown = none ∧
    ((processMedia demoEnv vidOkWorld none vidEvent).db.map
        (fun r => r.processingStatus)) = some (some "In Progress") ∧
    ((processMedia demoEnv vidOkWorld none vidEvent).db.map
        (fun r => r.processingStatus)) ≠ some (some "Completed") := by
  decide

/-- C3 amended: image and audio paths set In Progress then Completed when
their work does not throw; the audio path sets Failed while still
returning normally when its stage throws for any reason (download,
format probe, unsupported codec, the speech call, or the alternatives
access); the video path leaves the status at In Progress on success; and
every uncaught error (video annotation, publish, vision labeling, or
object localization) sets Failed and is rethrown. -/
theorem overall_status_transitions :
    (∀ (env : Env) (w : World) (db : Option MediaRecord) (e : StorageEvent),
      e.resourceState ≠ some "not_exists" →
      ∀ i : String, deriveDocId env e = some i →
      jsStartsWith (effectiveContentType e) "audio/" = false →
      jsStartsWith (effectiveContentType e) "video/" = false →
      jsStartsWith (effectiveContentType e) "image/" = true →
      ∀ ls os : Option (List String),
        w.labelDetection = .ok ls → w.objectLocalization = .ok os →
      (processMedia env w db e).thrown = none ∧
      ∃ r : MediaRecord, (processMedia env w db e).db = some r ∧
        r.processingStatus = some "Completed") ∧
    (∀ (env : Env) (w : World) (db : Option MediaRecord) (e : StorageEvent),
      e.resourceState ≠ some "not_exists" →
      ∀ i : String, deriveDocId env e = some i →
      jsStartsWith (effectiveContentType e) "audio/" = true →
      w.download = .ok () →
      ∀ fmt : AudioFormat, w.audioFormat = .ok fmt →
      ∀ enc : String, chooseEncoding fmt.codec (effectiveContentType e) = some enc →
      ∀ rs : List (List String), w.speech = .ok rs →
      ∀ ts : List String, firstTranscripts rs = some ts →
      (processMedia env w db e).thrown = none ∧
      ∃ r : MediaRecord, (processMedia env w db e).db = some r ∧
        r.processingStatus = some "Completed") ∧
    (∀ (env : Env) (w : World) (db : Option MediaRecord) (e : StorageEvent),
      e.resourceState ≠ some "not_exists" →
      ∀ i : String, deriveDocId env e = some i →
      jsStartsWith (effectiveContentType e) "audio/" = true →
      ((∃ msg, w.download = .error msg) ∨
       (w.download = .ok () ∧ ∃ msg, w.audioFormat = .error msg) ∨
       (w.download = .ok () ∧ ∃ fmt, w.audioFormat = .ok fmt ∧
         chooseEncoding fmt.codec (effectiveContentType e) = none) ∨
       (w.download = .ok () ∧ ∃ fmt, w.audioFormat = .ok fmt ∧
         (∃ enc, chooseEncoding fmt.codec (effectiveContentType e) = some enc) ∧
         ∃ msg, w.speech = .error msg) ∨
       (w.download = .ok () ∧ ∃ fmt, w.audioFormat = .ok fmt ∧
         (∃ enc, chooseEncoding fmt.codec (effectiveContentType e) = some enc) ∧
         ∃ rs, w.speech = .ok rs ∧ rs.length > 0 ∧ firstTranscripts rs = none)) →
      (processMedia env w db e).thrown = none ∧
      ∃ r : MediaRecord, (processMedia env w db e).db = some r ∧
        r.processingStatus = some "Failed") ∧
    (∀ (env : Env) (w : World) (db : Option MediaRecord) (e : StorageEvent),
      e.resourceState ≠ some "not_exists" →
      ∀ i : String, deriveDocId env e = some i →
      jsStartsWith (effectiveContentType e) "audio/" = false →
      jsStartsWith (effectiveContentType e) "video/" = true →
      ∀ arOpt : Option AnnotationResult, w.annotateVideo = .ok arOpt →
      w.publishResult = .ok () →
      (processMedia env w db e).thrown = none ∧
      ∃ r : MediaRecord, (processMedia env w db e).db = some r ∧
        r.processingStatus = some "In Progress") ∧
    (∀ (env : Env) (w : World) (db : Option MediaRecord) (e : StorageEvent),
      e.resourceState ≠ some "not_exists" →
      ∀ i : String, deriveDocId env e = some i →
      jsStartsWith (effectiveContentType e) "audio/" = false →
      jsStartsWith (effectiveContentType e) "video/" = true →
      ∀ msg : String, w.annotateVideo = .error msg →
      (processMedia env w db e).thrown = some msg ∧
      ∃ r : MediaRecord, (processMedia env w db e).db = some r ∧
        r.processingStatus = some "Failed") ∧
    (∀ (env : Env) (w : World) (db : Option MediaRecord) (e : StorageEvent),
      e.resourceState ≠ some "not_exists" →
      ∀ i : String, deriveDocId env e = some i →
      jsStartsWith (effectiveContentType e) "audio/" = false →
      jsStartsWith (effectiveContentType e) "video/" = true →
      ∀ arOpt : Option AnnotationResult, w.annotateVideo = .ok arOpt →
      ∀ msg : String, w.publishResult = .error msg →
      (processMedia env w db e).thrown = some msg ∧
      ∃ r : MediaRecord, (processMedia env w db e).db = some r ∧
        r.processingStatus = some "Failed") ∧
    (∀ (env : Env) (w : World) (db : Option MediaRecord) (e : StorageEvent),
      e.resourceState ≠ some "not_exists" →
      ∀ i : String, deriveDocId env e = some i →
      jsStartsWith (effectiveContentType e) "audio/" = false →
      jsStartsWith (effectiveContentType e) "video/" = false →
      jsStartsWith (effectiveContentType e) "image/" = true →
      ∀ msg : String, w.labelDetection = .error msg →
      (processMedia env w db e).thrown = some msg ∧
      ∃ r : MediaRecord, (processMedia env w db e).db = some r ∧
        r.processingStatus = some "Failed") ∧
    (∀ (env : Env) (w : World) (db : Option MediaRecord) (e : StorageEvent),
      e.resourceState ≠ some "not_exists" →
      ∀ i : String, deriveDocId env e = some i →
      jsStartsWith (effectiveContentType e) "audio/" = false →
      jsStartsWith (effectiveContentType e) "video/" = false →
      jsStartsWith (effectiveContentType e) "image/" = true →
      ∀ ls : Option (List String), w.labelDetection = .ok ls →
      ∀ msg : String, w.objectLocalization = .error msg →
      (processMedia env w db e).thrown = some msg ∧
      ∃ r : MediaRecord, (processMedia env w db e).db = some r ∧
        r.processingStatus = some "Failed") := by
  refine ⟨?_, ?_, ?_, ?_, ?_, ?_, ?_, ?_⟩
  · intro env w db e hstate i hid hA hV hI ls os hls hos
    rw [processMedia_image_eq env w db e hstate i hid hA hV hI]
    unfold processImagePath
    constructor
    · simp only [hls, hos]
    · simp only [hls, hos]
      exact ⟨_, rfl, by simp [mergeRecord]⟩
  · intro env w db e hstate i hid hA hd fmt hf enc he rs hs ts hts
    rw [processMedia_audio_eq env w db e hstate i hid hA]
    unfold processAudioPath
    refine ⟨rfl, _, rfl, ?_⟩
    have h1 := (audioFinal_stage_fields env w db e).1
    have h2 := audioStage_ok_status w (effectiveContentType e) (audioStart db w.now)
      hd fmt hf enc he rs hs ts hts
    simp [mergeRecord, h1, h2]
  · intro env w db e hstate i hid hA hthrow
    rw [processMedia_audio_eq env w db e hstate i hid hA]
    unfold processAudioPath
    refine ⟨rfl, _, rfl, ?_⟩
    have h1 := (audioFinal_stage_fields env w db e).1
    have h2 : (audioStage w (effectiveContentType e)
        (audioStart db w.now)).1.processingStatus = some "Failed" := by
      rcases hthrow with ⟨msg, hd⟩ | ⟨hd, msg, hf⟩ | ⟨hd, fmt, hf, he⟩ |
        ⟨hd, fmt, hf, ⟨enc, he⟩, msg, hs⟩ | ⟨hd, fmt, hf, ⟨enc, he⟩, rs, hs, hr, hts⟩
      · simp [audioStage, hd, audioFail]
      · simp [audioStage, hd, hf, audioFail]
      · simp [audioStage, hd, hf, he, audioFail]
      · simp [audioStage, hd, hf, he, hs, audioFail]
      · simp [audioStage, hd, hf, he, hs, hr, hts, audioFail]
    simp [mergeRecord, h1, h2]
  · intro env w db e hstate i hid hA hV arOpt har hp
    rw [processMedia_video_eq env w db e hstate i hid hA hV]
    unfold processVideoPath
    rcases arOpt with _ | ar <;>
    · constructor
      · simp only [har, hp]
      · simp only [har, hp]
        exact ⟨_, rfl,
          by simp [mergeRecord, videoAnnotationsMerge, videoStart_processingStatus]⟩
  · intro env w db e hstate i hid hA hV msg har
    rw [processMedia_video_eq env w db e hstate i hid hA hV]
    unfold processVideoPath
    constructor
    · simp only [har, outerCatch]
    · simp only [har, outerCatch]
      exact ⟨_, rfl, by simp [mergeRecord, fatalErrorRecord]⟩
  · intro env w db e hstate i hid hA hV arOpt har msg hp
    rw [processMedia_video_eq env w db e hstate i hid hA hV]
    unfold processVideoPath
    constructor
    · simp only [har, hp, outerCatch]
    · simp only [har, hp, outerCatch]
      exact ⟨_, rfl, by simp [mergeRecord, fatalErrorRecord]⟩
  · intro env w db e hstate i hid hA hV hI msg hl
    rw [processMedia_image_eq env w db e hstate i hid hA hV hI]
    unfold processImagePath
    constructor
    · simp only [hl, outerCatch]
    · simp only [hl, outerCatch]
      exact ⟨_, rfl, by simp [mergeRecord, fatalErrorRecord]⟩
  · intro env w db e hstate i hid hA hV hI ls hl msg ho
    rw [processMedia_image_eq env w db e hstate i hid hA hV hI]
    unfold processImagePath
    constructor
    · simp only [hl, ho, outerCatch]
    · simp only [hl, ho, outerCatch]
      exact ⟨_, rfl, by simp [mergeRecord, fatalErrorRecord]⟩

/-- Witness for C3 amended, instantiating every case at concrete inputs,
including two distinct audio stage throws and all four uncaught error
sources. -/
theorem overall_status_transitions_witness :
    ((processMedia demoEnv imgOkWorld none imgEvent).thrown = none ∧
      ∃ r : MediaRecord, (processMedia demoEnv imgOkWorld none imgEvent).db = some r ∧
        r.processingStatus = some "Completed") ∧
    ((processMedia demoEnv audOkWorld none audEvent).thrown = none ∧
      ∃ r : MediaRecord, (processMedia demoEnv audOkWorld none audEvent).db = some r ∧
        r.processingStatus = some "Completed") ∧
    ((processMedia demoEnv audDownloadFailWorld none audEvent).thrown = none ∧
      ∃ r : MediaRecord,
        (processMedia demoEnv audDownloadFailWorld none audEvent).db = some r ∧
        r.processingStatus = some "Failed") ∧
    ((processMedia demoEnv audSpeechFailWorld none audEvent).thrown = none ∧
      ∃ r : MediaRecord,
        (processMedia demoEnv audSpeechFailWorld none audEvent).db = some r ∧
        r.processingStatus = some "Failed") ∧
    ((processMedia demoEnv vidOkWorld none vidEvent).thrown = none ∧
      ∃ r : MediaRecord, (processMedia demoEnv vidOkWorld none vidEvent).db = some r ∧
        r.processingStatus = some "In Progress") ∧
    ((processMedia demoEnv vidFailWorld none vidEvent).thrown = some "VIDEO_API_DOWN" ∧
      ∃ r : MediaRecord, (processMedia demoEnv vidFailWorld none vidEvent).db = some r ∧
        r.processingStatus = some "Failed") ∧
    ((processMedia demoEnv vidPublishFailWorld none vidEvent).thrown =
        some "PUBSUB_DOWN" ∧
      ∃ r : MediaRecord,
        (processMedia demoEnv vidPublishFailWorld none vidEvent).db = some r ∧
        r.processingStatus = some "Failed") ∧
    ((processMedia demoEnv imgFailWorld none imgEvent).thrown = some "VISION_DOWN" ∧
      ∃ r : MediaRecord,
        (processMedia demoEnv imgFailWorld none imgEvent).db = some r ∧
        r.processingStatus = some "Failed") ∧
    ((processMedia demoEnv imgObjFailWorld none imgEvent).thrown =
        some "VISION_OBJ_DOWN" ∧
      ∃ r : MediaRecord,
        (processMedia demoEnv imgObjFailWorld none imgEvent).db = some r ∧
        r.processingStatus = some "Failed") := by
  refine ⟨?_, ?_, ?_, ?_, ?_, ?_, ?_, ?_, ?_⟩
  · exact overall_status_transitions.1 demoEnv imgOkWorld none imgEvent (by decide)
      "01" (by decide) (by decide) (by decide) (by decide)
      (some ["Tree"]) (some ["Car"]) rfl rfl
  · exact overall_status_transitions.2.1 demoEnv audOkWorld none audEvent (by decide)
      "01" (by decide) (by decide) rfl { codec := some "PCM" } rfl
      "LINEAR16" (by decide) [["hello world"]] rfl ["hello world"] rfl
  · exact overall_status_transitions.2.2.1 demoEnv audDownloadFailWorld none audEvent
      (by decide) "01" (by decide) (by decide)
      (Or.inl ⟨"DOWNLOAD_FAILED", rfl⟩)
  · exact overall_status_transitions.2.2.1 demoEnv audSpeechFailWorld none audEvent
      (by decide) "01" (by decide) (by decide)
      (Or.inr (Or.inr (Or.inr (Or.inl
        ⟨rfl, { codec := some "PCM" }, rfl, ⟨"LINEAR16", by decide⟩,
         "SPEECH_DOWN", rfl⟩))))
  · exact overall_status_transitions.2.2.2.1 demoEnv vidOkWorld none vidEvent
      (by decide) "01" (by decide) (by decide) (by decide)
      (some catBallAnnotations) rfl rfl
  · exact overall_status_transitions.2.2.2.2.1 demoEnv vidFailWorld none vidEvent
      (by decide) "01" (by decide) (by decide) (by decide) "VIDEO_API_DOWN" rfl
  · exact overall_status_transitions.2.2.2.2.2.1 demoEnv vidPublishFailWorld none
      vidEvent (by decide) "01" (by decide) (by decide) (by decide)
      (some catBallAnnotations) rfl "PUBSUB_DOWN" rfl
  · exact overall_status_transitions.2.2.2.2.2.2.1 demoEnv imgFailWorld none imgEvent
      (by decide) "01" (by decide) (by decide) (by decide) (by decide)
      "VISION_DOWN" rfl
  · exact overall_status_transitions.2.2.2.2.2.2.2 demoEnv imgObjFailWorld none
      imgEvent (by decide) "01" (by decide) (by decide) (by decide) (by decide)
      (some ["Tree"]) rfl "VISION_OBJ_DOWN" rfl

/-- C4 counterexample: a vision labeling failure is rethrown by the
invocation and is not recorded as a capability error status. -/
theorem vision_failure_rethrows :
    (processMedia demoEnv imgFailWorld none imgEvent).thrown = some "VISION_DOWN" ∧
    ((processMedia demoEnv imgFailWorld none imgEvent).db.map
        (fun r => r.visionApiStatus)) = some none := by
  decide

/-- C4 amended: speech-recognition and topic-generation failures are
swallowed and recorded as the capability error status with the message;
video-annotation and vision-labeling failures are not recorded
per-capability (every capability status is left exactly as stored): they
reach the outer boundary, which records processingError, sets the
overall status Failed, and rethrows. -/
theorem capability_error_propagation :
    (∀ (env : Env) (w : World) (db : Option MediaRecord) (e : StorageEvent),
      e.resourceState ≠ some "not_exists" →
      ∀ i : String, deriveDocId env e = some i →
      jsStartsWith (effectiveContentType e) "audio/" = true →
      w.download = .ok () →
      ∀ fmt : AudioFormat, w.audioFormat = .ok fmt →
      ∀ enc : String, chooseEncoding fmt.codec (effectiveContentType e) = some enc →
      ∀ msg : String, w.speech = .error msg →
      (processMedia env w db e).thrown = none ∧
      ∃ r : MediaRecord, (processMedia env w db e).db = some r ∧
        r.speechApiStatus = some "error" ∧ r.speechError = some msg) ∧
    (∀ (env : Env) (w : World) (db : Option MediaRecord) (e : StorageEvent),
      e.resourceState ≠ some "not_exists" →
      ∀ i : String, deriveDocId env e = some i →
      jsStartsWith (effectiveContentType e) "audio/" = true →
      w.download = .ok () →
      ∀ fmt : AudioFormat, w.audioFormat = .ok fmt →
      ∀ enc : String, chooseEncoding fmt.codec (effectiveContentType e) = some enc →
      ∀ rs : List (List String), w.speech = .ok rs → rs ≠ [] →
      ∀ ts : List String, firstTranscripts rs = some ts →
      jsTrim (joinWithNewline ts) ≠ "" →
      ∀ g : String, w.genTopics = .error g →
      (processMedia env w db e).thrown = none ∧
      ∃ r : MediaRecord, (processMedia env w db e).db = some r ∧
        r.topicsApiStatus = some "error" ∧ r.topicsError = some g) ∧
    (∀ (env : Env) (w : World) (db : Option MediaRecord) (e : StorageEvent),
      e.resourceState ≠ some "not_exists" →
      ∀ i : String, deriveDocId env e = some i →
      jsStartsWith (effectiveContentType e) "audio/" = false →
      jsStartsWith (effectiveContentType e) "video/" = true →
      ∀ msg : String, w.annotateVideo = .error msg →
      (processMedia env w db e).thrown = some msg ∧
      ∃ r : MediaRecord, (processMedia env w db e).db = some r ∧
        r.processingError = some (msg, "Error") ∧
        r.processingStatus = some "Failed" ∧
        r.visionApiStatus = (db.getD {}).visionApiStatus ∧
        r.videoApiStatus = (db.getD {}).videoApiStatus ∧
        r.speechApiStatus = (db.getD {}).speechApiStatus ∧
        r.topicsApiStatus = (db.getD {}).topicsApiStatus) ∧
    (∀ (env : Env) (w : World) (db : Option MediaRecord) (e : StorageEvent),
      e.resourceState ≠ some "not_exists" →
      ∀ i : String, deriveDocId env e = some i →
      jsStartsWith (effectiveContentType e) "audio/" = false →
      jsStartsWith (effectiveContentType e) "video/" = false →
      jsStartsWith (effectiveContentType e) "image/" = true →
      ∀ msg : String, w.labelDetection = .error msg →
      (processMedia env w db e).thrown = some msg ∧
      ∃ r : MediaRecord, (processMedia env w db e).db = some r ∧
        r.processingError = some (msg, "Error") ∧
        r.processingStatus = some "Failed" ∧
        r.visionApiStatus = (db.getD {}).visionApiStatus ∧
        r.videoApiStatus = (db.getD {}).videoApiStatus ∧
        r.speechApiStatus = (db.getD {}).speechApiStatus ∧
        r.topicsApiStatus = (db.getD {}).topicsApiStatus) := by
  refine ⟨?_, ?_, ?_, ?_⟩
  · intro env w db e hstate i hid hA hd fmt hf enc he msg hs
    rw [processMedia_audio_eq env w db e hstate i hid hA]
    unfold processAudioPath
    refine ⟨rfl, _, rfl, ?_, ?_⟩
    · have h1 := (audioFinal_stage_fields env w db e).2.1
      have h2 : (audioStage w (effectiveContentType e)
          (audioStart db w.now)).1.speechApiStatus = some "error" := by
        simp [audioStage, hd, hf, he, hs, audioFail]
      simp [mergeRecord, h1, h2]
    · have h1 := (audioFinal_stage_fields env w db e).2.2.1
      have h2 : (audioStage w (effectiveContentType e)
          (audioStart db w.now)).1.speechError = some msg := by
        simp [audioStage, hd, hf, he, hs, audioFail]
      simp [mergeRecord, h1, h2]
  · intro env w db e hstate i hid hA hd fmt hf enc he rs hs hne ts hts htr g hg
    rw [processMedia_audio_eq env w db e hstate i hid hA]
    unfold processAudioPath
    have hr : rs.length > 0 := List.length_pos.mpr hne
    refine ⟨rfl, _, rfl, ?_, ?_⟩
    · have h1 := (audioFinal_stage_fields env w db e).2.2.2.1
      have h2 : (audioStage w (effectiveContentType e)
          (audioStart db w.now)).1.topicsApiStatus = some "error" := by
        simp [audioStage, hd, hf, he, hs, hr, hts, htr, hg]
      simp [mergeRecord, h1, h2]
    · have h1 := (audioFinal_stage_fields env w db e).2.2.2.2.1
      have h2 : (audioStage w (effectiveContentType e)
          (audioStart db w.now)).1.topicsError = some g := by
        simp [audioStage, hd, hf, he, hs, hr, hts, htr, hg]
      simp [mergeRecord, h1, h2]
  · intro env w db e hstate i hid hA hV msg har
    rw [processMedia_video_eq env w db e hstate i hid hA hV]
    unfold processVideoPath
    constructor
    · simp only [har, outerCatch]
    · simp only [har, outerCatch]
      refine ⟨_, rfl, ?_, ?_, ?_, ?_, ?_, ?_⟩ <;>
        simp [mergeRecord, fatalErrorRecord]
  · intro env w db e hstate i hid hA hV hI msg hl
    rw [processMedia_image_eq env w db e hstate i hid hA hV hI]
    unfold processImagePath
    constructor
    · simp only [hl, outerCatch]
    · simp only [hl, outerCatch]
      refine ⟨_, rfl, ?_, ?_, ?_, ?_, ?_, ?_⟩ <;>
        simp [mergeRecord, fatalErrorRecord]

/-- Witness for C4 amended, instantiating every case at concrete inputs. -/
theorem capability_error_propagation_witness :
    ((processMedia demoEnv audSpeechFailWorld none audEvent).thrown = none ∧
      ∃ r : MediaRecord,
        (processMedia demoEnv audSpeechFailWorld none audEvent).db = some r ∧
        r.speechApiStatus = some "error" ∧ r.speechError = some "SPEECH_DOWN") ∧
    ((processMedia demoEnv audTopicsFailWorld none audEvent).thrown = none ∧
      ∃ r : MediaRecord,
        (processMedia demoEnv audTopicsFailWorld none audEvent).db = some r ∧
        r.topicsApiStatus = some "error" ∧ r.topicsError = some "GEMINI_DOWN") ∧
    ((processMedia demoEnv vidFailWorld none vidEvent).thrown = some "VIDEO_API_DOWN" ∧
      ∃ r : MediaRecord,
        (processMedia demoEnv vidFailWorld none vidEvent).db = some r ∧
        r.processingError = some ("VIDEO_API_DOWN", "Error") ∧
        r.processingStatus = some "Failed" ∧
        r.visionApiStatus = ((none : Option MediaRecord).getD {}).visionApiStatus ∧
        r.videoApiStatus = ((none : Option MediaRecord).getD {}).videoApiStatus ∧
        r.speechApiStatus = ((none : Option MediaRecord).getD {}).speechApiStatus ∧
        r.topicsApiStatus = ((none : Option MediaRecord).getD {}).topicsApiStatus) ∧
    ((processMedia demoEnv imgFailWorld none imgEvent).thrown = some "VISION_DOWN" ∧
      ∃ r : MediaRecord,
        (processMedia demoEnv imgFailWorld none imgEvent).db = some r ∧
        r.processingError = some ("VISION_DOWN", "Error") ∧
        r.processingStatus = some "Failed" ∧
        r.visionApiStatus = ((none : Option MediaRecord).getD {}).visionApiStatus ∧
        r.videoApiStatus = ((none : Option MediaRecord).getD {}).videoApiStatus ∧
        r.speechApiStatus = ((none : Option MediaRecord).getD {}).speechApiStatus ∧
        r.topicsApiStatus = ((none : Option MediaRecord).getD {}).topicsApiStatus) := by
  refine ⟨?_, ?_, ?_, ?_⟩
  · exact capability_error_propagation.1 demoEnv audSpeechFailWorld none audEvent
      (by decide) "01" (by decide) (by decide) rfl { codec := some "PCM" } rfl
      "LINEAR16" (by decide) "SPEECH_DOWN" rfl
  · exact capability_error_propagation.2.1 demoEnv audTopicsFailWorld none audEvent
      (by decide) "01" (by decide) (by decide) rfl { codec := some "PCM" } rfl
      "LINEAR16" (by decide) [["hello world"]] rfl (by decide)
      ["hello world"] rfl (by decide) "GEMINI_DOWN" rfl
  · exact capability_error_propagation.2.2.1 demoEnv vidFailWorld none vidEvent
      (by decide) "01" (by decide) (by decide) (by decide) "VIDEO_API_DOWN" rfl
  · exact capability_error_propagation.2.2.2 demoEnv imgFailWorld none imgEvent
      (by decide) "01" (by decide) (by decide) (by decide) (by decide)
      "VISION_DOWN" rfl

/-- C6 counterexample: a fresh direct audio upload whose transcript joins
and trims to empty gets the two statuses the claim names, but topics is
left absent rather than set to the empty list. -/
theorem empty_transcript_topics_absent :
    ((processMedia demoEnv audBlankWorld none audEvent).db.map
        (fun r => (r.speechApiStatus, r.topicsApiStatus))) =
      some (some "no_transcription", some "skipped_no_transcript") ∧
    ((processMedia demoEnv audBlankWorld none audEvent).db.map
        (fun r => r.topics)) = some none ∧
    ((processMedia demoEnv audBlankWorld none audEvent).db.map
        (fun r => r.topics)) ≠ some (some []) := by
  decide

/-- C6 amended: when recognition returns results whose joined trimmed
transcript is empty, the record gets speechApiStatus no_transcription,
topicsApiStatus skipped_no_transcript, an empty transcription, the topics
field is left exactly as it was (absent for a fresh record), and the
topic generator is never called. -/
theorem empty_transcript_statuses (env : Env) (w : World) (db : Option MediaRecord)
    (e : StorageEvent)
    (hstate : e.resourceState ≠ some "not_exists")
    (i : String) (hid : deriveDocId env e = some i)
    (hA : jsStartsWith (effectiveContentType e) "audio/" = true)
    (hd : w.download = .ok ())
    (fmt : AudioFormat) (hf : w.audioFormat = .ok fmt)
    (enc : String) (he : chooseEncoding fmt.codec (effectiveContentType e) = some enc)
    (rs : List (List String)) (hs : w.speech = .ok rs) (hne : rs ≠ [])
    (ts : List String) (hts : firstTranscripts rs = some ts)
    (htr : jsTrim (joinWithNewline ts) = "") :
    (processMedia env w db e).thrown = none ∧
    Action.callTopics ∉ (processMedia env w db e).trace ∧
    ∃ r : MediaRecord, (processMedia env w db e).db = some r ∧
      r.speechApiStatus = some "no_transcription" ∧
      r.topicsApiStatus = some "skipped_no_transcript" ∧
      r.transcription = some "" ∧
      r.topics = (db.getD {}).topics := by
  rw [processMedia_audio_eq env w db e hstate i hid hA]
  unfold processAudioPath
  have hr : rs.length > 0 := List.length_pos.mpr hne
  have hflds := audioFinal_stage_fields env w db e
  have hstg : (audioStage w (effectiveContentType e) (audioStart db w.now)).1 =
      { audioStart db w.now with
        transcription := some "",
        speechApiStatus := some "no_transcription",
        topicsApiStatus := some "skipped_no_transcript",
        processingStatus := some "Completed" } := by
    simp [audioStage, hd, hf, he, hs, hr, hts, htr]
  have hacts : (audioStage w (effectiveContentType e) (audioStart db w.now)).2 =
      [Action.callSpeech] := by
    simp [audioStage, hd, hf, he, hs, hr, hts, htr]
  refine ⟨rfl, ?_, _, rfl, ?_, ?_, ?_, ?_⟩
  · simp [hacts]
  · simp [mergeRecord, hflds.2.1, hstg]
  · simp [mergeRecord, hflds.2.2.2.1, hstg]
  · simp [mergeRecord, hflds.2.2.2.2.2.2, hstg]
  · simp [mergeRecord, hflds.2.2.2.2.2.1, hstg, (audioStart_fields db w.now).2.2.2.2.2.2.2.2.2.2.2.1,
      orElse_self]

/-- Witness for C6 amended on a whitespace-only transcript. -/
theorem empty_transcript_statuses_witness :
    (processMedia demoEnv audBlankWorld none audEvent).thrown = none ∧
    Action.callTopics ∉ (processMedia demoEnv audBlankWorld none audEvent).trace ∧
    ∃ r : MediaRecord,
      (processMedia demoEnv audBlankWorld none audEvent).db = some r ∧
      r.speechApiStatus = some "no_transcription" ∧
      r.topicsApiStatus = some "skipped_no_transcript" ∧
      r.transcription = some "" ∧
      r.topics = ((none : Option MediaRecord).getD {}).topics :=
  empty_transcript_statuses demoEnv audBlankWorld none audEvent (by decide)
    "01" (by decide) (by decide) rfl { codec := some "PCM" } rfl
    "LINEAR16" (by decide) [["  "]] rfl (by decide) ["  "] rfl (by decide)

/-- C7 counterexample: the audio path starts from a record with no
capability defaults at all, and a fresh audio run persists a record whose
topicsApiStatus is absent, not pending. -/
theorem audio_start_no_defaults :
    (audioStart none "2026-02-03T04:05:06.000Z").speechApiStatus ≠ some "pending" ∧
    (audioStart none "2026-02-03T04:05:06.000Z").tags ≠ some [] ∧
    (audioStart none "2026-02-03T04:05:06.000Z").topics ≠ some [] ∧
    ((processMedia demoEnv audSpeechFailWorld none audEvent).db.map
        (fun r => r.topicsApiStatus)) = some none := by
  decide

/-- C7 amended: for an absent record the audio path starts from the empty
object with only the run status and timestamp; the video path defaults
tags, object_tags, transcription and topics to empty values and the
video, speech and topics statuses to pending, leaving visionApiStatus
absent; the image path defaults only tags and object_tags, with no
pending statuses. -/
theorem start_record_defaults (e : StorageEvent) (ct uri now : String) :
    audioStart none now =
      { processingStatus := some "In Progress", processedAt := some now } ∧
    videoStart e ct uri now none =
      { fileName := some e.name, bucket := some e.bucket, contentType := some ct,
        uploadTime := some e.timeCreated, mediaUri := some uri,
        processedAt := some now, version := some e.generation,
        tags := some [], object_tags := some [], transcription := some "",
        topics := some [], processingStatus := some "In Progress",
        videoApiStatus := some "pending", speechApiStatus := some "pending",
        topicsApiStatus := some "pending" } ∧
    imageStart e ct uri now none =
      { fileName := some e.name, bucket := some e.bucket, contentType := some ct,
        uploadTime := some e.timeCreated, mediaUri := some uri,
        processedAt := some now, version := some e.generation,
        tags := some [], object_tags := some [],
        processingStatus := some "In Progress" } :=
  ⟨rfl, rfl, rfl⟩

end ArchivionGCP
